import Mathlib

/-!
Verification of the mycalpharma transform + incremental-rendering core.

The repository is a Next.js app; the verified core consists of:
* the layout editor (src/app/layout-editor/page.tsx): clamped drag/keyboard
  movement of overlay images, drawable-region creation, pointer-to-canonical
  coordinate conversion;
* the experiment page (src/app/exp1/page.tsx): the dose-response formula,
  the wash / injection animation timelines, canvas growth, containment-gated
  drawing, and the observation log.

JavaScript floating point numbers are embedded as ℚ where the code only
adds, subtracts, multiplies, divides and compares (exact on the decimal
inputs involved), and as ℝ where the code uses transcendental functions
(Math.exp, Math.pow, Math.cos, Math.sin).  Mutable component state becomes
explicit state records threaded through pure step functions.
-/

namespace MyCalPharma

open scoped Classical


/-! ## Layout editor data model (src/app/layout-editor/page.tsx) -/
/-- An overlay image in the layout editor (`interface SubImage`, layout-editor
page).  Coordinates are canonical pixels. -/
structure EditorImage where
  id : String
  x : ℚ
  y : ℚ
  width : ℚ
  height : ℚ
  zIndex : ℤ
  deriving DecidableEq

/-- A drawable region in the layout editor (`interface DrawableArea`). -/
structure EditorArea where
  id : String
  x : ℚ
  y : ℚ
  width : ℚ
  height : ℚ
  scrollWidth : ℚ
  zIndex : ℤ
  color : String
  deriving DecidableEq

/-- The dimensions of the base image, which bound interactive movement. -/
structure BaseDims where
  width : ℚ
  height : ℚ
  deriving DecidableEq

/-! ## Interactive movement (handleKeyDown, handleMouseMove) -/
/-- Arrow keys recognised by `handleKeyDown`. -/
inductive ArrowKey where
  | left
  | right
  | up
  | down
  deriving DecidableEq

/-- One interactive move operation on a selected image: either a pointer-move
frame of an active drag (`handleMouseMove`, with the grab offset recorded at
pointer-down) or one arrow-key press (`handleKeyDown`). -/
inductive MoveOp where
  | drag (clientX clientY rectLeft rectTop scale offsetX offsetY : ℚ)
  | arrow (key : ArrowKey) (shift : Bool)
  deriving DecidableEq

/-- `handleMouseMove` for an image drag: recompute the top-left corner from
the pointer position in canonical space minus the grab offset, then clamp
both axes into the base-image bounds (layout-editor page lines 300-321). -/
def dragMove (dims : BaseDims) (imgW imgH : ℚ) (clientX clientY rectLeft rectTop scale offsetX offsetY : ℚ) : ℚ × ℚ :=
  let newX := (clientX - rectLeft) / scale - offsetX
  let newY := (clientY - rectTop) / scale - offsetY
  (max 0 (min newX (dims.width - imgW)), max 0 (min newY (dims.height - imgH)))

/-- `handleKeyDown` for a selected image: 1 canonical pixel per arrow key,
10 with shift; each direction clamped on the side it moves toward
(layout-editor page lines 87-116). -/
def keyMove (dims : BaseDims) (imgW imgH : ℚ) (pos : ℚ × ℚ) (key : ArrowKey) (shift : Bool) : ℚ × ℚ :=
  let step : ℚ := if shift then 10 else 1
  match key with
  | ArrowKey.left => (max 0 (pos.1 - step), pos.2)
  | ArrowKey.right => (min (dims.width - imgW) (pos.1 + step), pos.2)
  | ArrowKey.up => (pos.1, max 0 (pos.2 - step))
  | ArrowKey.down => (pos.1, min (dims.height - imgH) (pos.2 + step))

/-- One interactive move operation applied to an image position. -/
def applyMove (dims : BaseDims) (imgW imgH : ℚ) (pos : ℚ × ℚ) : MoveOp → ℚ × ℚ
  | MoveOp.drag cX cY rL rT s oX oY => dragMove dims imgW imgH cX cY rL rT s oX oY
  | MoveOp.arrow key shift => keyMove dims imgW imgH pos key shift

/-- A whole sequence of interactive move operations. -/
def applyMoves (dims : BaseDims) (imgW imgH : ℚ) (pos : ℚ × ℚ) (ops : List MoveOp) : ℚ × ℚ :=
  ops.foldl (applyMove dims imgW imgH) pos

/-- The canonical-bounds invariant on an image position: the whole image
stays inside the base canvas. -/
def inBounds (dims : BaseDims) (imgW imgH : ℚ) (pos : ℚ × ℚ) : Prop :=
  0 ≤ pos.1 ∧ pos.1 ≤ dims.width - imgW ∧ 0 ≤ pos.2 ∧ pos.2 ≤ dims.height - imgH

instance (dims : BaseDims) (imgW imgH : ℚ) (pos : ℚ × ℚ) : Decidable (inBounds dims imgW imgH pos) := by
  unfold inBounds
  infer_instance

/-! ## Region creation (handleCanvasMouseUp, layout-editor page lines 228-257) -/
/-- `Math.max(0, ...subImages.map(zIndex), ...drawableAreas.map(zIndex))`:
the starting value 0 participates in the maximum. -/
def maxZIndex (subs : List EditorImage) (areas : List EditorArea) : ℤ :=
  (subs.map EditorImage.zIndex ++ areas.map EditorArea.zIndex).foldl max 0

/-- `handleCanvasMouseUp` during region creation: the axis-aligned rectangle
between the recorded start point and the pointer-up point, kept only when
both dimensions strictly exceed 20 canonical pixels; `newId` stands for the
`area-${Date.now()}` token. -/
def createRegion (subs : List EditorImage) (areas : List EditorArea)
    (newId : String) (areaStart : ℚ × ℚ) (endX endY : ℚ) : Option EditorArea :=
  let x := min areaStart.1 endX
  let y := min areaStart.2 endY
  let width := |endX - areaStart.1|
  let height := |endY - areaStart.2|
  if width > 20 ∧ height > 20 then
    some { id := newId, x := x, y := y, width := width, height := height,
           scrollWidth := width * 3, zIndex := maxZIndex subs areas + 1,
           color := "#ffffff" }
  else
    none

/-! ## Pointer-to-canonical conversion at pointer-down (handleMouseDown,
layout-editor page lines 259-298) -/
/-- Grab offset recorded on pointer-down over an image: both axes convert the
pointer through the container origin and the display scale. -/
def imageGrabOffset (rectLeft rectTop scale clientX clientY imgX imgY : ℚ) : ℚ × ℚ :=
  ((clientX - rectLeft) / scale - imgX, (clientY - rectTop) / scale - imgY)

/-- Grab offset recorded on pointer-down over a drawable region, exactly as
the source computes it: the vertical component reuses `clientX`
(layout-editor page line 295: `offsetY: (e.clientX - containerRect.top) / scale - area.y`). -/
def areaGrabOffset (rectLeft rectTop scale clientX clientY areaX areaY : ℚ) : ℚ × ℚ :=
  ((clientX - rectLeft) / scale - areaX, (clientX - rectTop) / scale - areaY)

/-! ## Observation log (exp1/page.tsx: ObservationRecord, updateObservationResponse) -/
/-- One row of the observation table.  The page stores `response` and
`percentResponse` as strings; an empty or unparseable string is embedded as
`none`, a parseable one as `some` of its numeric value. -/
structure ObsRecord where
  sNo : ℕ
  concentration : ℚ
  amountAdded : ℚ
  concInBath : ℚ
  response : Option ℚ
  percentResponse : Option ℚ
  deriving DecidableEq

/-- JavaScript `Number.prototype.toFixed(2)` on the exact values arising
here: round to the nearest multiple of 1/100. -/
def toFixed2 (q : ℚ) : ℚ :=
  (round (q * 100) : ℚ) / 100

/-- `updateObservationResponse(index, response)` (exp1/page.tsx lines
497-512): store the edited response at `index`; when it parses and
`maxResponse > 0`, recompute `percentResponse` for every row whose response
parses as `(response / maxResponse) * 100`, rendered through `toFixed(2)`. -/
def updateObservationResponse (obs : List ObsRecord) (index : ℕ)
    (response : Option ℚ) (maxResponse : ℚ) : List ObsRecord :=
  let updated := obs.mapIdx fun i o => if i = index then { o with response := response } else o
  if response ≠ none ∧ maxResponse > 0 then
    updated.map fun o =>
      match o.response with
      | some v => { o with percentResponse := some (toFixed2 (v / maxResponse * 100)) }
      | none => o
  else
    updated

/-- The observation-tab state the claim quantifies over: the rows plus the
user-entered maximum response. -/
structure ObsState where
  observations : List ObsRecord
  maxResponse : ℚ
  deriving DecidableEq

/-- Modelled from the spec: the experiment store (imported as `./store` by
exp1/page.tsx, not under src/) holds `maxResponse`; the Maximum Response
input (exp1/page.tsx lines 883-893) invokes its setter as
`onChange={e => setMaxResponse(Number(e.target.value))}`, so the only state
this event writes is the `maxResponse` value itself — like the store's
other plain setters, it assigns the value and touches nothing else. -/
def setMaxResponseStep (st : ObsState) (v : ℚ) : ObsState :=
  { st with maxResponse := v }

/-- A concrete observation row whose `percentResponse` was last computed
while `maxResponse` was 100. -/
def c9Row : ObsRecord :=
  { sNo := 1, concentration := 20, amountAdded := 0.05, concInBath := 0.05,
    response := some 50, percentResponse := some 50 }

/-! ## Backing canvas surfaces (exp1/page.tsx) -/
/-- A drawable region's backing raster surface: its bitmap dimensions and
the colour found at each pixel (`none` = transparent, the state a canvas
resets to when its `width` attribute is assigned).  A 1-pixel-wide vertical
stroke at integer `x` is idealised as painting column `x`. -/
structure Canvas where
  width : ℕ
  height : ℕ
  pix : ℕ → ℕ → Option String

/-- `expandCanvasIfNeeded(areaId, requiredWidth)` (exp1/page.tsx lines
335-360): when `requiredWidth > canvas.width - 200`, capture the raster with
`getImageData`, double the width (which resets the bitmap to transparent),
restore the capture at (0, 0) with `putImageData`, then — when the area
lookup succeeds — stroke vertical `#e0e0e0` grid lines every 50 pixels from
`x = 0` across the WHOLE new width.  `ctx.fillStyle = area.color` is set but
no fill is ever issued, and no horizontal grid lines are drawn. -/
noncomputable def expandCanvasIfNeeded (areaFound : Bool) (c : Canvas) (requiredWidth : ℝ) : Canvas :=
  if requiredWidth > (c.width : ℝ) - 200 then
    let newWidth := c.width * 2
    { width := newWidth
      height := c.height
      pix := fun x y =>
        if areaFound ∧ x % 50 = 0 ∧ x < newWidth ∧ y < c.height then some "#e0e0e0"
        else if x < c.width ∧ y < c.height then c.pix x y
        else none }
  else c

/-- A concrete pre-growth surface: 400×100, beige background, with one
white stroke pixel at (50, 10) — drawn content sitting on a grid column. -/
def c3Canvas : Canvas :=
  { width := 400, height := 100,
    pix := fun x y => if x = 50 ∧ y = 10 then some "#ffffff" else some "#f5f5dc" }

/-! ## Experiment page data model and action preconditions (exp1/page.tsx) -/
/-- A positioned overlay image on the experiment page (`SubImage` of the
experiment store): optional pivot (`centerX`, `centerY`) and optional
pen-tip offset; `none` embeds JavaScript `undefined`. -/
structure SubImage where
  id : String
  x : ℝ
  y : ℝ
  width : ℝ
  height : ℝ
  centerX : Option ℝ
  centerY : Option ℝ
  penTipOffsetX : Option ℝ
  penTipOffsetY : Option ℝ
  rotation : ℝ
  zIndex : ℤ

/-- A drawable region on the experiment page (`DrawableArea`). -/
structure DrawableArea where
  id : String
  x : ℝ
  y : ℝ
  width : ℝ
  height : ℝ
  scrollWidth : ℝ
  zIndex : ℤ
  color : String

/-- The loaded scene (`imageData`): base image reference, overlay images and
drawable regions. -/
structure ExpImageData where
  baseImage : Option String
  subImages : List SubImage
  drawableAreas : List DrawableArea

/-- The hard-coded id both actions use to locate the lever sub-image. -/
def leverId : String := "sub-1770900057664-0"

/-- `imageData.subImages.find(img => img.id === 'sub-1770900057664-0')`. -/
def findLever (subs : List SubImage) : Option SubImage :=
  subs.find? fun img => img.id == leverId

/-- The guard sequence duplicated verbatim at the top of `performWash`
(exp1/page.tsx lines 210-223) and `performInjection` (lines 362-375): each
failing check reports its toast message and returns before any state
mutation. -/
def leverPrecheck (d : ExpImageData) : Option String :=
  if d.baseImage = none ∨ d.subImages.length = 0 then
    some "Please load experiment data first!"
  else
    match findLever d.subImages with
    | none => some "Lever image not properly configured!"
    | some lever =>
      if lever.centerX.isNone ∨ lever.centerY.isNone then
        some "Lever image not properly configured!"
      else if lever.penTipOffsetX.isNone ∨ lever.penTipOffsetY.isNone then
        some "Pen tip not set on lever image!"
      else
        none

/-- The preconditions both actions require, as the claim lists them: data
loaded (base image and at least one sub-image), the lever located, its pivot
set and its pen-tip offset set. -/
def actionPreconditionsMet (d : ExpImageData) : Prop :=
  d.baseImage ≠ none ∧ d.subImages.length ≠ 0 ∧
  ∃ lever, findLever d.subImages = some lever ∧
    ¬lever.centerX.isNone ∧ ¬lever.centerY.isNone ∧
    ¬lever.penTipOffsetX.isNone ∧ ¬lever.penTipOffsetY.isNone

/-- The experiment page's state touched by the wash / injection actions. -/
structure ExpGlobalState where
  imageData : ExpImageData
  experimentRunning : Bool
  currentLeverRotation : ℝ
  observations : List ObsRecord
  currentGraphX : ℝ
  canvases : String → Canvas
  scrollLeft : String → ℝ
  lastPen : String → Option (ℝ × ℝ)
  toast : Option String

/-- The synchronous body of `performWash` up to scheduling the first
animation frame: failed guards set only a toast and return; otherwise the
info toast is shown and `experimentRunning` is set (the timeline itself runs
on later animation frames). -/
def performWashSync (st : ExpGlobalState) : ExpGlobalState :=
  match leverPrecheck st.imageData with
  | some msg => { st with toast := some msg }
  | none => { st with toast := some "Washing organ bath...", experimentRunning := true }

/-- The synchronous body of `performInjection` up to scheduling the first
animation frame; the info toast's interpolated dose text is abbreviated. -/
def performInjectionSync (st : ExpGlobalState) : ExpGlobalState :=
  match leverPrecheck st.imageData with
  | some msg => { st with toast := some msg }
  | none => { st with toast := some "Injecting ACh...", experimentRunning := true }

/-- An unallocated backing surface. -/
def blankCanvas : Canvas :=
  { width := 0, height := 0, pix := fun _ _ => none }

/-- A concrete experiment-page state with nothing loaded. -/
def c5State : ExpGlobalState :=
  { imageData := ⟨none, [], []⟩, experimentRunning := false, currentLeverRotation := 0,
    observations := [], currentGraphX := 0, canvases := fun _ => blankCanvas,
    scrollLeft := fun _ => 0, lastPen := fun _ => none, toast := none }

/-- A concrete state whose only sub-image is fully configured (pivot and
pen-tip offset set) but carries the id "sub-other" instead of the
hard-coded lever id. -/
def c10State : ExpGlobalState :=
  { imageData := ⟨some "base", [⟨"sub-other", 0, 0, 10, 10, some 1, some 1, some 2, some 2, 0, 1⟩], []⟩,
    experimentRunning := false, currentLeverRotation := 0, observations := [],
    currentGraphX := 0, canvases := fun _ => blankCanvas, scrollLeft := fun _ => 0,
    lastPen := fun _ => none, toast := none }

/-! ## Dose-response formula and animation easings (exp1/page.tsx) -/
/-- `const ORGAN_BATH_VOLUME = 20` (exp1/page.tsx line 21). -/
def ORGAN_BATH_VOLUME : ℝ := 20

/-- `const MAX_ROTATION_ANGLE = 20` (exp1/page.tsx line 22). -/
def MAX_ROTATION_ANGLE : ℝ := 20

/-- `calculateResponse(baseline, concentration)` (exp1/page.tsx lines
194-208): the Hill-equation-style response percentage.  `Math.pow` on the
nonnegative arguments arising here is the real power `Real.rpow`. -/
noncomputable def calculateResponse (baseline concentration : ℝ) : ℝ :=
  let dose := baseline * concentration
  let concInBath := dose / ORGAN_BATH_VOLUME
  let EC50 : ℝ := 0.5
  let hillCoefficient : ℝ := 1.5
  let numerator := concInBath ^ hillCoefficient
  let denominator := EC50 ^ hillCoefficient + concInBath ^ hillCoefficient
  100 * (numerator / denominator)

/-- The target rotation `performInjection` computes (exp1/page.tsx line
379): `-(responsePercent / 100) * MAX_ROTATION_ANGLE`. -/
noncomputable def injectionTarget (baseline concentration : ℝ) : ℝ :=
  -(calculateResponse baseline concentration / 100) * MAX_ROTATION_ANGLE

/-- Wash frame progress: `Math.min(elapsed / duration, 1)` with the fixed
1500 ms duration (exp1/page.tsx lines 228, 251). -/
noncomputable def washProgress (elapsed : ℝ) : ℝ :=
  min (elapsed / 1500) 1

/-- Wash easing `1 - Math.exp(-5 * progress)` (exp1/page.tsx line 252). -/
noncomputable def washEase (progress : ℝ) : ℝ :=
  1 - Real.exp (-5 * progress)

/-- The wash rotation at a given progress:
`startRotation + (targetRotation - startRotation) * easeProgress` with
`targetRotation = 0` (exp1/page.tsx lines 227, 253). -/
noncomputable def washRotationAt (startRotation progress : ℝ) : ℝ :=
  startRotation + (0 - startRotation) * washEase progress

/-- Injection easing, the logistic sigmoid
`1 / (1 + Math.exp(-8 * (progress - 0.5)))` (exp1/page.tsx line 393). -/
noncomputable def injectionEase (progress : ℝ) : ℝ :=
  1 / (1 + Real.exp (-8 * (progress - 0.5)))

/-- The injection rotation at a given progress (exp1/page.tsx line 394). -/
noncomputable def injectionRotationAt (startRotation targetRotation progress : ℝ) : ℝ :=
  startRotation + (targetRotation - startRotation) * injectionEase progress

/-! ## Geometry and the injection animation run (exp1/page.tsx) -/
/-- `rotatePoint(x, y, centerX, centerY, angle)` (exp1/page.tsx lines
180-190): 2D rotation about an arbitrary center, angle in degrees. -/
noncomputable def rotatePoint (x y centerX centerY angle : ℝ) : ℝ × ℝ :=
  let radians := angle * Real.pi / 180
  let c := Real.cos radians
  let s := Real.sin radians
  let dx := x - centerX
  let dy := y - centerY
  (centerX + (dx * c - dy * s), centerY + (dx * s + dy * c))

/-- The lever sub-image's configuration as `performInjection` reads it after
the guards have passed: position, pivot and pen-tip offset all present. -/
structure Lever where
  id : String
  x : ℝ
  y : ℝ
  centerX : ℝ
  centerY : ℝ
  penTipOffsetX : ℝ
  penTipOffsetY : ℝ

/-- The rotated pen tip sampled each animation frame (exp1/page.tsx lines
404-412): `rotatePoint(x + penTipOffsetX, y + penTipOffsetY, centerX,
centerY, currentRotation)`. -/
noncomputable def rotatedPenTip (lever : Lever) (rotation : ℝ) : ℝ × ℝ :=
  rotatePoint (lever.x + lever.penTipOffsetX) (lever.y + lever.penTipOffsetY)
    lever.centerX lever.centerY rotation

/-- The containment test of exp1/page.tsx lines 415-418. -/
def isInArea (pt : ℝ × ℝ) (area : DrawableArea) : Prop :=
  area.x ≤ pt.1 ∧ pt.1 ≤ area.x + area.width ∧
  area.y ≤ pt.2 ∧ pt.2 ≤ area.y + area.height

/-- Pointwise update of a per-region map (the `refs.current[area.id] = v`
assignments). -/
def stringUpdate {α : Type} (f : String → α) (k : String) (v : α) : String → α :=
  fun id => if id = k then v else f id

/-- The browser's rasterization of one `ctx.stroke()` of a line segment
(`moveTo`/`lineTo` with `strokeStyle '#ffffff'`, `lineWidth 2`, round caps):
given the two endpoint coordinates it repaints some pixels of the bitmap.
Antialiasing makes the painted set implementation-defined, so the run model
is parameterised over it. -/
def Rasterizer : Type :=
  (ℝ × ℝ) → (ℝ × ℝ) → (ℕ → ℕ → Option String) → ℕ → ℕ → Option String

/-- The trivial rasterizer (paints nothing). -/
def trivialRaster : Rasterizer := fun _ _ pix => pix

/-- The run-local state threaded through one injection run: the page state,
`startScrollPositions` and the run's `areaLastPos` (seeded from the
persistent `lastPenPositionRef`). -/
structure RunAcc where
  st : ExpGlobalState
  startScrolls : String → Option ℝ
  areaLastPos : String → Option (ℝ × ℝ)

/-- One drawable area processed inside the per-frame `forEach` of
`performInjection` (exp1/page.tsx lines 414-460): when the rotated pen tip
is inside the area, record the start scroll if unset, advance the scroll by
`150 × progress` (clamped, when auto-scroll is on), grow the backing canvas
if the pen approaches its edge, stroke from the last pen position (if any)
to the current one in scrolled backing coordinates, and update the last pen
position; otherwise the area is untouched. -/
noncomputable def injectionAreaStep (raster : Rasterizer) (autoScroll : Bool)
    (progress : ℝ) (pt : ℝ × ℝ) (acc : RunAcc) (area : DrawableArea) : RunAcc :=
  if isInArea pt area then
    let startScrolls :=
      if (acc.startScrolls area.id).isNone then
        stringUpdate acc.startScrolls area.id (some (acc.st.scrollLeft area.id))
      else acc.startScrolls
    let startScroll := (startScrolls area.id).getD 0
    let currentScrollOffset := startScroll + 150 * progress
    let canvas := acc.st.canvases area.id
    let st1 :=
      if autoScroll then
        { acc.st with scrollLeft := (stringUpdate acc.st.scrollLeft area.id
            (max 0 (min currentScrollOffset ((canvas.width : ℝ) - area.width)))) }
      else acc.st
    let penTipRelativeX := pt.1 - area.x
    let canvas1 := expandCanvasIfNeeded true canvas (penTipRelativeX + currentScrollOffset + 300)
    let canvasX := (pt.1 - area.x) + currentScrollOffset
    let canvasY := pt.2 - area.y
    let canvas2 :=
      match acc.areaLastPos area.id with
      | some lastPos => { canvas1 with pix := raster lastPos (canvasX, canvasY) canvas1.pix }
      | none => canvas1
    { st := { st1 with
        canvases := stringUpdate st1.canvases area.id canvas2,
        lastPen := stringUpdate st1.lastPen area.id (some (canvasX, canvasY)) },
      startScrolls := startScrolls,
      areaLastPos := stringUpdate acc.areaLastPos area.id (some (canvasX, canvasY)) }
  else
    acc

/-- One animation frame of `performInjection` (exp1/page.tsx lines
389-460): recompute the eased rotation, push it into
`currentLeverRotation` and the lever sub-image's `rotation`, recompute the
rotated pen tip, then process every drawable area. -/
noncomputable def injectionFrame (raster : Rasterizer) (autoScroll : Bool)
    (lever : Lever) (areas : List DrawableArea) (startRotation targetRotation : ℝ)
    (acc : RunAcc) (progress : ℝ) : RunAcc :=
  let currentRotation := injectionRotationAt startRotation targetRotation progress
  let st0 := { acc.st with
    currentLeverRotation := currentRotation,
    imageData := { acc.st.imageData with
      subImages := acc.st.imageData.subImages.map fun img =>
        if img.id == lever.id then { img with rotation := currentRotation } else img } }
  let pt := rotatedPenTip lever currentRotation
  areas.foldl (injectionAreaStep raster autoScroll progress pt) { acc with st := st0 }

/-- The completion branch of `performInjection` (exp1/page.tsx lines
463-491): snapshot the canvases (a read), clear the running flag, advance
the graph cursor past the first area's final scroll, append exactly one
observation record, and toast success. -/
def injectionComplete (areas : List DrawableArea) (baseline concentration : ℚ)
    (st : ExpGlobalState) : ExpGlobalState :=
  let st1 := { st with experimentRunning := false }
  let st2 :=
    match areas.head? with
    | some area => { st1 with currentGraphX := st1.scrollLeft area.id + 20 }
    | none => st1
  { st2 with
    observations := st2.observations ++ [{
      sNo := st2.observations.length + 1,
      concentration := baseline,
      amountAdded := concentration,
      concInBath := baseline * concentration / 20,
      response := none,
      percentResponse := none }],
    toast := some "Injection completed!" }

/-- A whole injection run after the guards have passed: set the running
flag, then run the animation frames at the given progress samples
(`min(elapsed/3000, 1)` per frame; the last sample of a finished run is 1),
then the completion branch. -/
noncomputable def performInjectionRun (raster : Rasterizer) (lever : Lever)
    (autoScroll : Bool) (baseline concentration : ℚ) (ps : List ℝ)
    (st : ExpGlobalState) : ExpGlobalState :=
  let startRotation := st.currentLeverRotation
  let targetRotation := injectionTarget (baseline : ℝ) (concentration : ℝ)
  let st0 := { st with experimentRunning := true, toast := some "Injecting ACh..." }
  let acc0 : RunAcc := { st := st0, startScrolls := fun _ => none, areaLastPos := st.lastPen }
  let accF := ps.foldl
    (injectionFrame raster autoScroll lever st.imageData.drawableAreas startRotation targetRotation)
    acc0
  injectionComplete st.imageData.drawableAreas baseline concentration accF.st

/-- A concrete lever: pivot at the origin, pen tip offset (3, 4), so the
rotated pen tip always stays within distance 5 of the origin. -/
def c4Lever : Lever :=
  { id := "sub-1770900057664-0", x := 0, y := 0, centerX := 0, centerY := 0,
    penTipOffsetX := 3, penTipOffsetY := 4 }

/-- A concrete drawable area far to the right of the pen tip's reach. -/
def c4Area : DrawableArea :=
  { id := "a1", x := 1000, y := 0, width := 100, height := 100,
    scrollWidth := 300, zIndex := 1, color := "#ffffff" }

/-- A concrete loaded state with the far-away area. -/
def c4State : ExpGlobalState :=
  { imageData := ⟨some "base", [], [c4Area]⟩, experimentRunning := false,
    currentLeverRotation := 0, observations := [], currentGraphX := 0,
    canvases := fun _ => blankCanvas, scrollLeft := fun _ => 0,
    lastPen := fun _ => none, toast := none }

/-! ## Lemmas and claim theorems -/

lemma dragMove_inBounds (dims : BaseDims) (imgW imgH : ℚ)
    (hW : 0 ≤ dims.width - imgW) (hH : 0 ≤ dims.height - imgH)
    (cX cY rL rT s oX oY : ℚ) :
    inBounds dims imgW imgH (dragMove dims imgW imgH cX cY rL rT s oX oY) := by
  unfold dragMove inBounds
  refine ⟨le_max_left _ _, ?_, le_max_left _ _, ?_⟩
  · exact max_le hW (min_le_right _ _)
  · exact max_le hH (min_le_right _ _)

lemma keyMove_inBounds (dims : BaseDims) (imgW imgH : ℚ) (pos : ℚ × ℚ)
    (h : inBounds dims imgW imgH pos) (key : ArrowKey) (shift : Bool) :
    inBounds dims imgW imgH (keyMove dims imgW imgH pos key shift) := by
  obtain ⟨h1, h2, h3, h4⟩ := h
  have hstep : (0 : ℚ) ≤ if shift then 10 else 1 := by
    cases shift <;> norm_num
  cases key with
  | left =>
      exact ⟨le_max_left _ _, max_le (h1.trans h2) (by linarith), h3, h4⟩
  | right =>
      exact ⟨le_min (h1.trans h2) (by linarith), min_le_left _ _, h3, h4⟩
  | up =>
      exact ⟨h1, h2, le_max_left _ _, max_le (h3.trans h4) (by linarith)⟩
  | down =>
      exact ⟨h1, h2, le_min (h3.trans h4) (by linarith), min_le_left _ _⟩

/-- Claim C6: for every image that starts within canonical bounds, any
sequence of pointer drags and arrow-key nudges (1 pixel, or 10 with shift)
leaves the position satisfying `0 ≤ x ≤ canvasWidth − width` and
`0 ≤ y ≤ canvasHeight − height`. -/
theorem clamped_movement (dims : BaseDims) (imgW imgH : ℚ) (pos : ℚ × ℚ)
    (ops : List MoveOp) (h : inBounds dims imgW imgH pos) :
    inBounds dims imgW imgH (applyMoves dims imgW imgH pos ops) := by
  induction ops generalizing pos with
  | nil => exact h
  | cons op rest ih =>
      refine ih (applyMove dims imgW imgH pos op) ?_
      cases op with
      | drag cX cY rL rT s oX oY =>
          exact dragMove_inBounds dims imgW imgH
            (le_trans h.1 h.2.1) (le_trans h.2.2.1 h.2.2.2) cX cY rL rT s oX oY
      | arrow key shift => exact keyMove_inBounds dims imgW imgH pos h key shift

/-- Witness for C6: a concrete image inside a 100×100 canvas stays in bounds
after a drag and two key presses. -/
theorem clamped_movement_witness :
    inBounds ⟨100, 100⟩ 10 10 ((0, 0) : ℚ × ℚ) ∧
    inBounds ⟨100, 100⟩ 10 10
      (applyMoves ⟨100, 100⟩ 10 10 (0, 0)
        [MoveOp.drag 500 500 0 0 1 0 0, MoveOp.arrow ArrowKey.left true,
         MoveOp.arrow ArrowKey.down false]) :=
  ⟨by norm_num [inBounds],
   clamped_movement ⟨100, 100⟩ 10 10 (0, 0) _ (by norm_num [inBounds])⟩

/-- Counterexample to claim C7 as stated: a drag whose rectangle is exactly
20×20 canonical pixels has both dimensions at least the 20-pixel minimum,
yet no region is created, because the code requires `width > 20 && height > 20`
strictly. -/
theorem region_min_size_counterexample :
    (20 : ℚ) ≥ 20 ∧ createRegion [] [] "area-1" (0, 0) 20 20 = none := by
  constructor
  · norm_num
  · norm_num [createRegion]

/-- Claim C7 (amended): a region is created iff both dimensions of the drag
rectangle strictly exceed 20 canonical pixels, and the created region has
`scrollWidth = 3 × width` and a zIndex one above the maximum of 0 and all
current image and region zIndexes. -/
theorem region_creation (subs : List EditorImage) (areas : List EditorArea)
    (newId : String) (areaStart : ℚ × ℚ) (endX endY : ℚ) (r : EditorArea)
    (h : createRegion subs areas newId areaStart endX endY = some r) :
    |endX - areaStart.1| > 20 ∧ |endY - areaStart.2| > 20 ∧
    r.width = |endX - areaStart.1| ∧ r.height = |endY - areaStart.2| ∧
    r.scrollWidth = 3 * r.width ∧ r.zIndex = maxZIndex subs areas + 1 := by
  unfold createRegion at h
  by_cases hc : |endX - areaStart.1| > 20 ∧ |endY - areaStart.2| > 20
  · rw [if_pos hc] at h
    obtain ⟨hc1, hc2⟩ := hc
    cases h
    exact ⟨hc1, hc2, rfl, rfl, by ring, rfl⟩
  · rw [if_neg hc] at h
    exact absurd h (by simp)

/-- Witness for C7: a 25×25 drag on an empty scene yields exactly one region
with `scrollWidth = 75` and `zIndex = 1`; a 15×15 drag yields none. -/
theorem region_creation_witness :
    createRegion [] [] "area-1" (0, 0) 15 15 = none ∧
    createRegion [] [] "area-1" (0, 0) 25 25 =
      some { id := "area-1", x := 0, y := 0, width := 25, height := 25,
             scrollWidth := 75, zIndex := 1, color := "#ffffff" } ∧
    ((25 : ℚ) > 20 ∧ (25 : ℚ) > 20 ∧ (25 : ℚ) = |25 - (0 : ℚ)| ∧
      (25 : ℚ) = |25 - (0 : ℚ)| ∧ (75 : ℚ) = 3 * 25 ∧ (1 : ℤ) = maxZIndex [] [] + 1) := by
  refine ⟨by norm_num [createRegion], by norm_num [createRegion, maxZIndex], ?_⟩
  have h := region_creation [] [] "area-1" (0, 0) 25 25
    { id := "area-1", x := 0, y := 0, width := 25, height := 25,
      scrollWidth := 75, zIndex := 1, color := "#ffffff" }
    (by norm_num [createRegion, maxZIndex])
  simpa using h

/-- Claim C8 evaluated on the code: the vertical grab-offset component for a
drawable region is independent of `clientY`, and at the failing input
(pointer at client (100, 200), container origin (0, 0), scale 1, region at
(10, 10)) the code records (90, 90) while the consistent mapping — used for
images — records (90, 190). -/
theorem area_grab_offset_uses_clientX :
    (∀ rectLeft rectTop scale clientX clientY clientY' areaX areaY : ℚ,
      (areaGrabOffset rectLeft rectTop scale clientX clientY areaX areaY).2 =
      (areaGrabOffset rectLeft rectTop scale clientX clientY' areaX areaY).2) ∧
    areaGrabOffset 0 0 1 100 200 10 10 = (90, 90) ∧
    imageGrabOffset 0 0 1 100 200 10 10 = (90, 190) := by
  refine ⟨fun _ _ _ _ _ _ _ _ => rfl, ?_, ?_⟩ <;> norm_num [areaGrabOffset, imageGrabOffset, Prod.ext_iff]

/-- Counterexample to claim C9 as stated: with a row of response 50 and
`percentResponse` 50 (computed against maxResponse 100), changing
`maxResponse` to 200 leaves every row untouched — `percentResponse` stays 50
instead of being recomputed to `100 × 50 / 200 = 25`. -/
theorem max_response_no_recompute_counterexample :
    (setMaxResponseStep ⟨[c9Row], 100⟩ 200).observations = [c9Row] ∧
    c9Row.percentResponse = some 50 ∧
    toFixed2 (100 * 50 / 200) = 25 ∧ (some (50 : ℚ) ≠ some (25 : ℚ)) := by
  refine ⟨rfl, rfl, ?_, by norm_num⟩
  norm_num [toFixed2]

/-- Claim C9 (amended): the full-list recomputation happens only inside
`updateObservationResponse`, when the edited response parses and
`maxResponse > 0`; every row whose response parses then gets
`percentResponse = toFixed2(response / maxResponse × 100)`, rows without a
parseable response are left alone, and changing `maxResponse` alone
recomputes nothing. -/
theorem percent_response_recompute (obs : List ObsRecord) (index : ℕ)
    (v : ℚ) (maxResponse : ℚ) (hmax : maxResponse > 0) :
    (∀ o ∈ updateObservationResponse obs index (some v) maxResponse,
      (∀ w, o.response = some w →
        o.percentResponse = some (toFixed2 (w / maxResponse * 100)))) ∧
    (∀ st : ObsState, ∀ m : ℚ, (setMaxResponseStep st m).observations = st.observations) := by
  constructor
  · intro o ho w hw
    unfold updateObservationResponse at ho
    rw [if_pos ⟨Option.some_ne_none v, hmax⟩] at ho
    obtain ⟨o', _, rfl⟩ := List.mem_map.mp ho
    cases h' : o'.response with
    | none => simp only [h'] at hw ⊢; exact absurd hw (by simp)
    | some u =>
        simp only [h'] at hw ⊢
        cases hw
        rfl
  · intro st m
    rfl

/-- Witness for C9: a concrete edit (row 0 of a two-row table set to 40 with
maxResponse 80) recomputes both parseable rows to the formula value. -/
theorem percent_response_recompute_witness :
    (∀ o ∈ updateObservationResponse
        [c9Row, { c9Row with sNo := 2, response := some 20, percentResponse := none }]
        0 (some 40) 80,
      (∀ w, o.response = some w →
        o.percentResponse = some (toFixed2 (w / 80 * 100)))) ∧
    (∀ st : ObsState, ∀ m : ℚ, (setMaxResponseStep st m).observations = st.observations) :=
  percent_response_recompute
    [c9Row, { c9Row with sNo := 2, response := some 20, percentResponse := none }]
    0 40 80 (by norm_num)

/-- Claim C3 evaluated on the code at the failing input: growth triggered by
`requiredWidth = 250 > 400 - 200` doubles the width to 800, but the stroke
pixel at (50, 10) is overwritten by the re-stroked grid (now `#e0e0e0`), and
the newly added area receives no background fill (pixel (460, 10), off the
grid columns, is transparent), contradicting both halves of the claim. -/
theorem canvas_growth_not_content_preserving :
    (expandCanvasIfNeeded true c3Canvas 250).width = 800 ∧
    c3Canvas.pix 50 10 = some "#ffffff" ∧
    (expandCanvasIfNeeded true c3Canvas 250).pix 50 10 = some "#e0e0e0" ∧
    (expandCanvasIfNeeded true c3Canvas 250).pix 460 10 = none := by
  have hcond : (250 : ℝ) > ((c3Canvas.width : ℕ) : ℝ) - 200 := by
    norm_num [c3Canvas]
  refine ⟨?_, rfl, ?_, ?_⟩ <;>
    simp only [expandCanvasIfNeeded, if_pos hcond] <;> norm_num [c3Canvas]

lemma leverPrecheck_eq_none_iff (d : ExpImageData) :
    leverPrecheck d = none ↔ actionPreconditionsMet d := by
  constructor
  · intro h
    unfold leverPrecheck at h
    split at h
    · exact absurd h (by simp)
    · rename_i h1
      push_neg at h1
      split at h
      · exact absurd h (by simp)
      · rename_i lever hf
        split at h
        · exact absurd h (by simp)
        · split at h
          · exact absurd h (by simp)
          · rename_i h2 h3
            push_neg at h2
            push_neg at h3
            exact ⟨h1.1, h1.2, lever, hf,
              by simp [h2.1], by simp [h2.2], by simp [h3.1], by simp [h3.2]⟩
  · rintro ⟨hb, hs, lever, hf, hcx, hcy, hpx, hpy⟩
    unfold leverPrecheck
    rw [if_neg (by tauto), hf]
    show (if lever.centerX.isNone ∨ lever.centerY.isNone then
        some "Lever image not properly configured!"
      else if lever.penTipOffsetX.isNone ∨ lever.penTipOffsetY.isNone then
        some "Pen tip not set on lever image!"
      else none) = none
    rw [if_neg (by tauto), if_neg (by tauto)]

/-- Claim C5: when any required precondition is unmet, both actions are
refused before any state mutation — the whole state is left unchanged except
for the reported toast, whose message is the failed guard's. -/
theorem action_precondition_refusal (st : ExpGlobalState)
    (h : ¬actionPreconditionsMet st.imageData) :
    ∃ msg, leverPrecheck st.imageData = some msg ∧
      performWashSync st = { st with toast := some msg } ∧
      performInjectionSync st = { st with toast := some msg } ∧
      (performWashSync st).experimentRunning = st.experimentRunning ∧
      (performWashSync st).currentLeverRotation = st.currentLeverRotation ∧
      (performWashSync st).canvases = st.canvases ∧
      (performWashSync st).scrollLeft = st.scrollLeft ∧
      (performWashSync st).currentGraphX = st.currentGraphX ∧
      (performWashSync st).observations = st.observations := by
  have hne : leverPrecheck st.imageData ≠ none := by
    rw [Ne, leverPrecheck_eq_none_iff]
    exact h
  cases hp : leverPrecheck st.imageData with
  | none => exact absurd hp hne
  | some msg =>
      refine ⟨msg, rfl, ?_, ?_, ?_, ?_, ?_, ?_, ?_, ?_⟩ <;>
        simp [performWashSync, performInjectionSync, hp]

/-- Witness for C5: with nothing loaded, both actions refuse with the
data-loading message and the state is untouched. -/
theorem action_precondition_refusal_witness :
    ∃ msg, leverPrecheck c5State.imageData = some msg ∧
      performWashSync c5State = { c5State with toast := some msg } ∧
      performInjectionSync c5State = { c5State with toast := some msg } ∧
      (performWashSync c5State).experimentRunning = c5State.experimentRunning ∧
      (performWashSync c5State).currentLeverRotation = c5State.currentLeverRotation ∧
      (performWashSync c5State).canvases = c5State.canvases ∧
      (performWashSync c5State).scrollLeft = c5State.scrollLeft ∧
      (performWashSync c5State).currentGraphX = c5State.currentGraphX ∧
      (performWashSync c5State).observations = c5State.observations :=
  action_precondition_refusal c5State
    (by simp [actionPreconditionsMet, c5State])

/-- Claim C10: both actions locate the lever solely by the hard-coded id;
with data loaded but no sub-image carrying exactly that id — however well
configured the others are — both actions refuse with the
lever-not-configured message. -/
theorem lever_found_only_by_hardcoded_id (st : ExpGlobalState)
    (hbase : st.imageData.baseImage ≠ none)
    (hsubs : st.imageData.subImages.length ≠ 0)
    (hid : ∀ img ∈ st.imageData.subImages, img.id ≠ leverId) :
    performWashSync st = { st with toast := some "Lever image not properly configured!" } ∧
    performInjectionSync st = { st with toast := some "Lever image not properly configured!" } := by
  have hfind : findLever st.imageData.subImages = none := by
    unfold findLever
    rw [List.find?_eq_none]
    intro img hm
    simpa using hid img hm
  have hp : leverPrecheck st.imageData = some "Lever image not properly configured!" := by
    unfold leverPrecheck
    rw [if_neg (by tauto), hfind]
  constructor <;> simp [performWashSync, performInjectionSync, hp]

/-- Witness for C10: the fully configured sub-image under a different id is
not accepted; both actions report the lever-not-configured message. -/
theorem lever_found_only_by_hardcoded_id_witness :
    performWashSync c10State = { c10State with toast := some "Lever image not properly configured!" } ∧
    performInjectionSync c10State = { c10State with toast := some "Lever image not properly configured!" } :=
  lever_found_only_by_hardcoded_id c10State
    (by simp [c10State]) (by simp [c10State]) (by simp [c10State, leverId])

lemma sqrt1000_gt : (31.62 : ℝ) < Real.sqrt 1000 := by
  rw [show (31.62 : ℝ) = Real.sqrt (31.62 ^ 2) by rw [Real.sqrt_sq (by norm_num)]]
  exact Real.sqrt_lt_sqrt (by norm_num) (by norm_num)

lemma sqrt1000_lt : Real.sqrt 1000 < 31.63 := by
  rw [show (31.63 : ℝ) = Real.sqrt (31.63 ^ 2) by rw [Real.sqrt_sq (by norm_num)]]
  exact Real.sqrt_lt_sqrt (by norm_num) (by norm_num)

/-- In scenario A the response percentage has the closed form
`100 / (1 + √1000)`: the dose is `20 × 0.05 = 1`, the bath concentration is
`0.05 = EC50 / 10`, and `(EC50/x)^1.5 / x^1.5 = 10^1.5 = √1000`. -/
lemma calculateResponse_scenarioA :
    calculateResponse 20 0.05 = 100 / (1 + Real.sqrt 1000) := by
  unfold calculateResponse ORGAN_BATH_VOLUME
  show 100 * ((20 * (0.05 : ℝ) / 20) ^ (1.5 : ℝ) /
      ((0.5 : ℝ) ^ (1.5 : ℝ) + (20 * (0.05 : ℝ) / 20) ^ (1.5 : ℝ))) =
    100 / (1 + Real.sqrt 1000)
  rw [show (20 : ℝ) * 0.05 / 20 = 0.05 by norm_num]
  have hb : (0.5 : ℝ) ^ (1.5 : ℝ) = Real.sqrt 1000 * (0.05 : ℝ) ^ (1.5 : ℝ) := by
    rw [show (0.5 : ℝ) = 10 * 0.05 by norm_num,
      Real.mul_rpow (by norm_num) (by norm_num)]
    congr 1
    rw [show ((10 : ℝ) ^ (1.5 : ℝ)) = ((10 : ℝ) ^ ((3 : ℝ) * (1 / 2 : ℝ))) by norm_num,
      Real.rpow_mul (by norm_num : (0 : ℝ) ≤ 10)]
    rw [show (10 : ℝ) ^ (3 : ℝ) = 1000 by
      rw [show (3 : ℝ) = ((3 : ℕ) : ℝ) by norm_num, Real.rpow_natCast]; norm_num]
    rw [← Real.sqrt_eq_rpow]
  have ha : (0 : ℝ) < (0.05 : ℝ) ^ (1.5 : ℝ) := Real.rpow_pos_of_pos (by norm_num) _
  rw [hb,
    show Real.sqrt 1000 * (0.05 : ℝ) ^ (1.5 : ℝ) + (0.05 : ℝ) ^ (1.5 : ℝ) =
      (0.05 : ℝ) ^ (1.5 : ℝ) * (1 + Real.sqrt 1000) by ring,
    div_mul_eq_div_div, div_self ha.ne', mul_one_div]

lemma scenarioA_response_bounds :
    3.06 < calculateResponse 20 0.05 ∧ calculateResponse 20 0.05 < 3.07 := by
  rw [calculateResponse_scenarioA]
  have hs : (0 : ℝ) < 1 + Real.sqrt 1000 := by positivity
  constructor
  · rw [lt_div_iff hs]
    nlinarith [sqrt1000_lt]
  · rw [div_lt_iff hs]
    nlinarith [sqrt1000_gt]

lemma scenarioA_target_bounds :
    -0.614 < injectionTarget 20 0.05 ∧ injectionTarget 20 0.05 < -0.612 := by
  obtain ⟨h1, h2⟩ := scenarioA_response_bounds
  unfold injectionTarget MAX_ROTATION_ANGLE
  constructor <;> nlinarith

/-- Counterexample to claim C1 as stated: in scenario A (baseline 20,
volume 0.05) the code's response percent is about 3.07, more than 8 away
from the claimed ≈ 11.2, and the target rotation is about −0.613°, more
than 1.6 away from the claimed ≈ −2.24°. -/
theorem injection_scenarioA_counterexample :
    8 < |calculateResponse 20 0.05 - 11.2| ∧
    1.6 < |injectionTarget 20 0.05 - (-2.24)| := by
  obtain ⟨hr1, hr2⟩ := scenarioA_response_bounds
  obtain ⟨ht1, ht2⟩ := scenarioA_target_bounds
  constructor
  · rw [abs_of_neg (by linarith)]
    linarith
  · rw [abs_of_pos (by linarith)]
    linarith

/-- Claim C1 (amended): the injection target is
`−(responsePercent/100) × maxAngle` with the Hill formula as stated, but in
scenario A (baseline 20, volume 0.05; dose 1, bath concentration 0.05) the
response percent is `100 / (1 + √1000) ≈ 3.07` and the target rotation
≈ −0.613°, not ≈ 11.2 % and ≈ −2.24°. -/
theorem injection_target_formula :
    (∀ baseline concentration : ℝ,
      injectionTarget baseline concentration =
        -(calculateResponse baseline concentration / 100) * MAX_ROTATION_ANGLE) ∧
    (20 : ℝ) * 0.05 = 1 ∧ (1 : ℝ) / ORGAN_BATH_VOLUME = 0.05 ∧
    calculateResponse 20 0.05 = 100 / (1 + Real.sqrt 1000) ∧
    3.06 < calculateResponse 20 0.05 ∧ calculateResponse 20 0.05 < 3.07 ∧
    -0.614 < injectionTarget 20 0.05 ∧ injectionTarget 20 0.05 < -0.612 := by
  refine ⟨fun _ _ => rfl, by norm_num, by norm_num [ORGAN_BATH_VOLUME],
    calculateResponse_scenarioA, scenarioA_response_bounds.1,
    scenarioA_response_bounds.2, scenarioA_target_bounds.1, scenarioA_target_bounds.2⟩

lemma exp_five_gt : (148 : ℝ) < Real.exp 5 := by
  have h1 : Real.exp 5 = Real.exp 1 ^ (5 : ℕ) := by
    rw [← Real.exp_nat_mul]
    norm_num
  have h3 : (2.7182818283 : ℝ) ^ (5 : ℕ) ≤ Real.exp 1 ^ (5 : ℕ) :=
    pow_le_pow_left₀ (by norm_num) (le_of_lt Real.exp_one_gt_d9) 5
  have h4 : (148 : ℝ) < (2.7182818283 : ℝ) ^ (5 : ℕ) := by norm_num
  linarith

lemma washRotationAt_one (startRotation : ℝ) :
    washRotationAt startRotation 1 = startRotation * Real.exp (-5) := by
  unfold washRotationAt washEase
  rw [show (-5 : ℝ) * 1 = -5 by norm_num]
  ring

/-- Counterexample to claim C2 as stated: a wash started at rotation 20°
finishes (progress 1) at `20·e⁻⁵ ≈ 0.135° ≠ 0` — the exponential easing
`1 − e^(−5·progress)` never reaches 1, so the code leaves a residual
rotation of `startRotation·e⁻⁵` instead of exactly 0°. -/
theorem wash_residual_rotation_counterexample :
    washRotationAt 20 1 ≠ 0 ∧ 0 < washRotationAt 20 1 := by
  have h := washRotationAt_one 20
  have hpos : 0 < 20 * Real.exp (-5) := by positivity
  rw [h]
  exact ⟨ne_of_gt hpos, hpos⟩

/-- Claim C2 (amended): a wash completes exactly when the elapsed time
reaches the fixed 1500 ms duration (progress clamps to 1), and the
completion-frame rotation is `startRotation · e⁻⁵` — within |start|/148 of
0°, and exactly 0° only when the wash started at 0°. -/
theorem wash_completion (startRotation elapsed : ℝ) (h : 1500 ≤ elapsed) :
    washProgress elapsed = 1 ∧
    washRotationAt startRotation 1 = startRotation * Real.exp (-5) ∧
    |washRotationAt startRotation 1| ≤ |startRotation| / 148 ∧
    (startRotation = 0 → washRotationAt startRotation 1 = 0) := by
  refine ⟨?_, washRotationAt_one startRotation, ?_, ?_⟩
  · unfold washProgress
    rw [min_eq_right]
    rw [le_div_iff (by norm_num : (0 : ℝ) < 1500)]
    linarith
  · rw [washRotationAt_one, abs_mul, abs_of_pos (Real.exp_pos _)]
    have hle : Real.exp (-5) ≤ 1 / 148 := by
      rw [Real.exp_neg]
      have h148 : (0 : ℝ) < 148 := by norm_num
      calc (Real.exp 5)⁻¹ ≤ (148 : ℝ)⁻¹ :=
            inv_le_inv_of_le h148 (le_of_lt exp_five_gt)
        _ = 1 / 148 := by norm_num
    calc |startRotation| * Real.exp (-5) ≤ |startRotation| * (1 / 148) :=
          mul_le_mul_of_nonneg_left hle (abs_nonneg _)
      _ = |startRotation| / 148 := by ring
  · intro h0
    rw [h0, washRotationAt_one]
    ring

/-- Witness for C2 (amended): the wash started at 20° with elapsed time
exactly 1500 ms. -/
theorem wash_completion_witness :
    washProgress 1500 = 1 ∧
    washRotationAt 20 1 = 20 * Real.exp (-5) ∧
    |washRotationAt 20 1| ≤ |(20 : ℝ)| / 148 ∧
    ((20 : ℝ) = 0 → washRotationAt 20 1 = 0) :=
  wash_completion 20 1500 (by norm_num)

lemma injectionAreaStep_not_in (raster : Rasterizer) (autoScroll : Bool)
    (progress : ℝ) (pt : ℝ × ℝ) (acc : RunAcc) (area : DrawableArea)
    (h : ¬isInArea pt area) :
    injectionAreaStep raster autoScroll progress pt acc area = acc := by
  unfold injectionAreaStep
  exact if_neg h

lemma foldl_areaStep_not_in (raster : Rasterizer) (autoScroll : Bool)
    (progress : ℝ) (pt : ℝ × ℝ) (areas : List DrawableArea) (acc : RunAcc)
    (h : ∀ a ∈ areas, ¬isInArea pt a) :
    areas.foldl (injectionAreaStep raster autoScroll progress pt) acc = acc := by
  induction areas generalizing acc with
  | nil => rfl
  | cons a rest ih =>
      rw [List.foldl_cons,
        injectionAreaStep_not_in raster autoScroll progress pt acc a (h a (by simp))]
      exact ih acc fun a' ha' => h a' (by simp [ha'])

lemma injectionFrame_not_in (raster : Rasterizer) (autoScroll : Bool)
    (lever : Lever) (areas : List DrawableArea) (s t : ℝ) (acc : RunAcc) (p : ℝ)
    (h : ∀ a ∈ areas, ¬isInArea (rotatedPenTip lever (injectionRotationAt s t p)) a) :
    injectionFrame raster autoScroll lever areas s t acc p =
      { acc with st := { acc.st with
          currentLeverRotation := injectionRotationAt s t p,
          imageData := { acc.st.imageData with
            subImages := acc.st.imageData.subImages.map fun img =>
              if img.id == lever.id then
                { img with rotation := injectionRotationAt s t p }
              else img } } } := by
  unfold injectionFrame
  exact foldl_areaStep_not_in raster autoScroll p _ areas _ h

lemma foldl_frames_not_in (raster : Rasterizer) (autoScroll : Bool)
    (lever : Lever) (areas : List DrawableArea) (s t : ℝ) (ps : List ℝ) (acc : RunAcc)
    (h : ∀ p ∈ ps, ∀ a ∈ areas, ¬isInArea (rotatedPenTip lever (injectionRotationAt s t p)) a) :
    (ps.foldl (injectionFrame raster autoScroll lever areas s t) acc).st.canvases = acc.st.canvases ∧
    (ps.foldl (injectionFrame raster autoScroll lever areas s t) acc).st.scrollLeft = acc.st.scrollLeft ∧
    (ps.foldl (injectionFrame raster autoScroll lever areas s t) acc).st.lastPen = acc.st.lastPen ∧
    (ps.foldl (injectionFrame raster autoScroll lever areas s t) acc).st.observations = acc.st.observations ∧
    (ps.foldl (injectionFrame raster autoScroll lever areas s t) acc).st.experimentRunning = acc.st.experimentRunning ∧
    (ps.foldl (injectionFrame raster autoScroll lever areas s t) acc).st.toast = acc.st.toast ∧
    (match ps.getLast? with
     | none => (ps.foldl (injectionFrame raster autoScroll lever areas s t) acc).st.currentLeverRotation = acc.st.currentLeverRotation
     | some p => (ps.foldl (injectionFrame raster autoScroll lever areas s t) acc).st.currentLeverRotation = injectionRotationAt s t p) := by
  induction ps generalizing acc with
  | nil => exact ⟨rfl, rfl, rfl, rfl, rfl, rfl, rfl⟩
  | cons p rest ih =>
      have hframe := injectionFrame_not_in raster autoScroll lever areas s t acc p
        (h p (by simp))
      have ihrest := ih (injectionFrame raster autoScroll lever areas s t acc p)
        (fun p' hp' a ha => h p' (by simp [hp']) a ha)
      rw [List.foldl_cons]
      obtain ⟨i1, i2, i3, i4, i5, i6, i7⟩ := ihrest
      refine ⟨by rw [i1, hframe], by rw [i2, hframe], by rw [i3, hframe],
        by rw [i4, hframe], by rw [i5, hframe], by rw [i6, hframe], ?_⟩
      cases rest with
      | nil =>
          simp only [List.getLast?_singleton]
          simp only [List.getLast?_nil] at i7
          rw [i7, hframe]
      | cons q rest' =>
          have hlast : (p :: q :: rest').getLast? = (q :: rest').getLast? := by
            simp [List.getLast?]
          rw [hlast]
          cases hql : (q :: rest').getLast? with
          | none => simp [List.getLast?] at hql
          | some r =>
              rw [hql] at i7
              exact i7

lemma injectionComplete_fields (areas : List DrawableArea) (b c : ℚ) (st : ExpGlobalState) :
    (injectionComplete areas b c st).canvases = st.canvases ∧
    (injectionComplete areas b c st).scrollLeft = st.scrollLeft ∧
    (injectionComplete areas b c st).lastPen = st.lastPen ∧
    (injectionComplete areas b c st).experimentRunning = false ∧
    (injectionComplete areas b c st).currentLeverRotation = st.currentLeverRotation ∧
    (injectionComplete areas b c st).toast = some "Injection completed!" ∧
    (injectionComplete areas b c st).observations = st.observations ++ [{
      sNo := st.observations.length + 1, concentration := b, amountAdded := c,
      concInBath := b * c / 20, response := none, percentResponse := none }] := by
  unfold injectionComplete
  cases areas.head? <;> exact ⟨rfl, rfl, rfl, rfl, rfl, rfl, rfl⟩

/-- Claim C4: when the rotated pen tip is outside every drawable area at
every animation frame, the run modifies no backing surface, scroll offset
or last-pen record, yet it still completes (running flag cleared, success
toast), the rotation still animates through the easing to its final frame
value `injectionRotationAt start target 1`, and exactly one observation
record is appended. -/
theorem injection_containment_gated (raster : Rasterizer) (lever : Lever)
    (autoScroll : Bool) (baseline concentration : ℚ) (ps : List ℝ)
    (st : ExpGlobalState)
    (hout : ∀ p ∈ ps, ∀ a ∈ st.imageData.drawableAreas,
      ¬isInArea (rotatedPenTip lever
        (injectionRotationAt st.currentLeverRotation
          (injectionTarget (baseline : ℝ) (concentration : ℝ)) p)) a)
    (hlast : ps.getLast? = some 1) :
    (performInjectionRun raster lever autoScroll baseline concentration ps st).canvases = st.canvases ∧
    (performInjectionRun raster lever autoScroll baseline concentration ps st).scrollLeft = st.scrollLeft ∧
    (performInjectionRun raster lever autoScroll baseline concentration ps st).lastPen = st.lastPen ∧
    (performInjectionRun raster lever autoScroll baseline concentration ps st).experimentRunning = false ∧
    (performInjectionRun raster lever autoScroll baseline concentration ps st).currentLeverRotation =
      injectionRotationAt st.currentLeverRotation
        (injectionTarget (baseline : ℝ) (concentration : ℝ)) 1 ∧
    (performInjectionRun raster lever autoScroll baseline concentration ps st).toast = some "Injection completed!" ∧
    (performInjectionRun raster lever autoScroll baseline concentration ps st).observations =
      st.observations ++ [{
        sNo := st.observations.length + 1,
        concentration := baseline,
        amountAdded := concentration,
        concInBath := baseline * concentration / 20,
        response := none,
        percentResponse := none }] := by
  have hfold := foldl_frames_not_in raster autoScroll lever st.imageData.drawableAreas
    st.currentLeverRotation (injectionTarget (baseline : ℝ) (concentration : ℝ)) ps
    { st := { st with experimentRunning := true, toast := some "Injecting ACh..." },
      startScrolls := fun _ => none, areaLastPos := st.lastPen }
    hout
  obtain ⟨f1, f2, f3, f4, f5, f6, f7⟩ := hfold
  rw [hlast] at f7
  have hrun : performInjectionRun raster lever autoScroll baseline concentration ps st =
      injectionComplete st.imageData.drawableAreas baseline concentration
        (ps.foldl (injectionFrame raster autoScroll lever st.imageData.drawableAreas
          st.currentLeverRotation (injectionTarget (baseline : ℝ) (concentration : ℝ)))
          { st := { st with experimentRunning := true, toast := some "Injecting ACh..." },
            startScrolls := fun _ => none, areaLastPos := st.lastPen }).st := rfl
  obtain ⟨c1, c2, c3, c4, c5, c6, c7⟩ :=
    injectionComplete_fields st.imageData.drawableAreas baseline concentration
      (ps.foldl (injectionFrame raster autoScroll lever st.imageData.drawableAreas
        st.currentLeverRotation (injectionTarget (baseline : ℝ) (concentration : ℝ)))
        { st := { st with experimentRunning := true, toast := some "Injecting ACh..." },
          startScrolls := fun _ => none, areaLastPos := st.lastPen }).st
  rw [hrun]
  exact ⟨by rw [c1, f1], by rw [c2, f2], by rw [c3, f3], c4, by rw [c5, f7], c6,
    by rw [c7, f4]⟩

lemma c4_penTip_fst_le (angle : ℝ) : (rotatedPenTip c4Lever angle).1 ≤ 5 := by
  show (0 : ℝ) + ((0 + 3 - 0) * Real.cos (angle * Real.pi / 180) -
      (0 + 4 - 0) * Real.sin (angle * Real.pi / 180)) ≤ 5
  have hcs := Real.sin_sq_add_cos_sq (angle * Real.pi / 180)
  nlinarith [sq_nonneg (4 * Real.cos (angle * Real.pi / 180) + 3 * Real.sin (angle * Real.pi / 180)),
    sq_nonneg (3 * Real.cos (angle * Real.pi / 180) - 4 * Real.sin (angle * Real.pi / 180) - 5)]

/-- Witness for C4: one run (single frame at progress 1) of the concrete
scene whose pen tip can never reach the area at x = 1000. -/
theorem injection_containment_gated_witness :
    (performInjectionRun trivialRaster c4Lever true 20 0.05 [1] c4State).canvases = c4State.canvases ∧
    (performInjectionRun trivialRaster c4Lever true 20 0.05 [1] c4State).scrollLeft = c4State.scrollLeft ∧
    (performInjectionRun trivialRaster c4Lever true 20 0.05 [1] c4State).lastPen = c4State.lastPen ∧
    (performInjectionRun trivialRaster c4Lever true 20 0.05 [1] c4State).experimentRunning = false ∧
    (performInjectionRun trivialRaster c4Lever true 20 0.05 [1] c4State).currentLeverRotation =
      injectionRotationAt c4State.currentLeverRotation
        (injectionTarget ((20 : ℚ) : ℝ) ((0.05 : ℚ) : ℝ)) 1 ∧
    (performInjectionRun trivialRaster c4Lever true 20 0.05 [1] c4State).toast = some "Injection completed!" ∧
    (performInjectionRun trivialRaster c4Lever true 20 0.05 [1] c4State).observations =
      c4State.observations ++ [{
        sNo := c4State.observations.length + 1,
        concentration := 20,
        amountAdded := 0.05,
        concInBath := 20 * 0.05 / 20,
        response := none,
        percentResponse := none }] := by
  refine injection_containment_gated trivialRaster c4Lever true 20 0.05 [1] c4State ?_ rfl
  intro p hp a ha
  have ha' : a = c4Area := by simpa [c4State] using ha
  subst ha'
  intro hin
  have h1 := hin.1
  have h2 := c4_penTip_fst_le
    (injectionRotationAt c4State.currentLeverRotation
      (injectionTarget ((20 : ℚ) : ℝ) ((0.05 : ℚ) : ℝ)) p)
  have : c4Area.x = (1000 : ℝ) := rfl
  linarith [this ▸ h1]

end MyCalPharma
